import Mathlib

/-!
Shallow embedding of the Pokemon Crystal save editor
(`pokemon_crystal_editor.py`, `add_masterballs.py`).

The save buffer is modelled as a total function `Nat → Nat` giving the byte
at each offset; Python `bytearray` writes become functional updates.
Every definition mirrors the corresponding Python function; constants keep
the source's names.
-/

namespace CrystalEditor

/-- A save buffer: byte value at each offset. -/
def Buf : Type := Nat → Nat

/-- `data[a] = v` on a bytearray, as a functional update. -/
def writeByte (d : Buf) (a v : Nat) : Buf :=
  fun x => if x = a then v else d x

-- ---------------------------------------------------------------------------
-- Layout constants (module-level constants of pokemon_crystal_editor.py)
-- ---------------------------------------------------------------------------

def CHECKSUM_OFFSET : Nat := 0x2D69
def CHECKSUM_DATA_START : Nat := 0x2009
def CHECKSUM_DATA_END : Nat := 0x2D68

def CHECKSUM_OFFSET_BANK1 : Nat := 0x1F0D
def CHECKSUM_DATA_START_BANK1 : Nat := 0x1209
def CHECKSUM_DATA_END_BANK1 : Nat := 0x1D82

def MONEY_OFFSET : Nat := 0x23DC

def PARTY_COUNT_OFFSET : Nat := 0x2865
def PARTY_SPECIES_OFFSET : Nat := 0x2866
def PARTY_DATA_OFFSET : Nat := 0x286D

def PKMN_SPECIES : Nat := 0x00
def PKMN_ITEM : Nat := 0x01
def PKMN_MOVE1 : Nat := 0x02
def PKMN_MOVE2 : Nat := 0x03
def PKMN_MOVE3 : Nat := 0x04
def PKMN_MOVE4 : Nat := 0x05
def PKMN_HP_EV : Nat := 0x0B
def PKMN_ATK_EV : Nat := 0x0D
def PKMN_DEF_EV : Nat := 0x0F
def PKMN_SPD_EV : Nat := 0x11
def PKMN_SPC_EV : Nat := 0x13
def PKMN_DVS : Nat := 0x15
def PKMN_FRIENDSHIP : Nat := 0x1B
def PKMN_LEVEL : Nat := 0x1F
def PKMN_STATUS : Nat := 0x20
def PKMN_HP_CURRENT : Nat := 0x22
def PKMN_HP_MAX : Nat := 0x24

def PARTY_POKEMON_SIZE : Nat := 48

-- ---------------------------------------------------------------------------
-- Checksums (calculate_checksum, update_checksum, write_save)
-- ---------------------------------------------------------------------------

/-- `calculate_checksum(data, start, end)`: running 16-bit sum of
`data[start..end]` inclusive, `(checksum + data[i]) & 0xFFFF` per step. -/
def calculate_checksum (d : Buf) (start fin : Nat) : Nat :=
  (List.range (fin + 1 - start)).foldl (fun acc i => (acc + d (start + i)) % 65536) 0

/-- `update_checksum(data)`: recompute and store both banks' checksums
(low byte first), returning `(checksum1, checksum2)` alongside the buffer. -/
def update_checksum (d : Buf) : Buf × Nat × Nat :=
  let checksum1 := calculate_checksum d CHECKSUM_DATA_START_BANK1 CHECKSUM_DATA_END_BANK1
  let d1 := writeByte d CHECKSUM_OFFSET_BANK1 (checksum1 &&& 0xFF)
  let d2 := writeByte d1 (CHECKSUM_OFFSET_BANK1 + 1) ((checksum1 >>> 8) &&& 0xFF)
  let checksum2 := calculate_checksum d2 CHECKSUM_DATA_START CHECKSUM_DATA_END
  let d3 := writeByte d2 CHECKSUM_OFFSET (checksum2 &&& 0xFF)
  let d4 := writeByte d3 (CHECKSUM_OFFSET + 1) ((checksum2 >>> 8) &&& 0xFF)
  (d4, checksum1, checksum2)

/-- `write_save(path, data)` calls `update_checksum(data)` then persists the
buffer; the bytes that reach disk are the updated buffer. -/
def write_save (d : Buf) : Buf :=
  (update_checksum d).1

/-- The intermediate buffer of `update_checksum` after storing bank 1's
checksum. -/
def after_bank1 (d : Buf) : Buf :=
  let c1 := calculate_checksum d CHECKSUM_DATA_START_BANK1 CHECKSUM_DATA_END_BANK1
  writeByte (writeByte d CHECKSUM_OFFSET_BANK1 (c1 &&& 0xFF))
    (CHECKSUM_OFFSET_BANK1 + 1) ((c1 >>> 8) &&& 0xFF)

-- ---------------------------------------------------------------------------
-- Inventory pockets (POCKETS, POCKETS_BANK1, add_item_to_pocket_single,
-- add_item_to_pocket)
-- ---------------------------------------------------------------------------

/-- A pocket descriptor: the source's `{'count': ..., 'data': ..., 'max_slots': ...}`
dict. -/
structure Pocket where
  count : Nat
  data : Nat
  max_slots : Nat

/-- The two pocket names handled by `add_item_to_pocket`. -/
inductive PocketName
  | items
  | balls
deriving DecidableEq

/-- `POCKETS`: bank-2 (primary) pocket table. -/
def POCKETS : PocketName → Pocket
  | .items => ⟨0x241A, 0x241B, 20⟩
  | .balls => ⟨0x2465, 0x2466, 12⟩

/-- `POCKETS_BANK1`: bank-1 (secondary/backup) pocket table. -/
def POCKETS_BANK1 : PocketName → Pocket
  | .items => ⟨0x161A, 0x161B, 20⟩
  | .balls => ⟨0x1665, 0x1666, 12⟩

/-- Outcome of `add_item_to_pocket_single`, mirroring its three return
strings: `"Updated: old -> new"`, `"Added xN"`, `"Pocket full!"`. -/
inductive AddResult
  | updated (old new : Nat)
  | added (qty : Nat)
  | pocketFull
deriving DecidableEq

/-- The `for i in range(count)` scan of `add_item_to_pocket_single`: index of
the first slot among the first `n` whose item byte equals `item_id`. -/
def findItemIdx (d : Buf) (dataOff item_id : Nat) : Nat → Option Nat
  | 0 => none
  | n + 1 =>
    (findItemIdx d dataOff item_id n).orElse
      (fun _ => if d (dataOff + 2 * n) = item_id then some n else none)

/-- `add_item_to_pocket_single(data, pocket, item_id, quantity)`. -/
def add_item_to_pocket_single (d : Buf) (pocket : Pocket) (item_id quantity : Nat) :
    Buf × AddResult :=
  let count := d pocket.count
  match findItemIdx d pocket.data item_id count with
  | some i =>
      let off := pocket.data + 2 * i
      (writeByte d (off + 1) (min quantity 99), .updated (d (off + 1)) (min quantity 99))
  | none =>
      if count < pocket.max_slots then
        let off := pocket.data + 2 * count
        (writeByte (writeByte (writeByte d off item_id) (off + 1) (min quantity 99))
          pocket.count (count + 1), .added (min quantity 99))
      else
        (d, .pocketFull)

/-- `add_item_to_pocket(data, pocket_name, item_id, quantity)`: apply the
single-pocket edit to bank 1 then to bank 2, reporting both results. -/
def add_item_to_pocket (d : Buf) (pocket_name : PocketName) (item_id quantity : Nat) :
    Buf × AddResult × AddResult :=
  let r1 := add_item_to_pocket_single d (POCKETS_BANK1 pocket_name) item_id quantity
  let r2 := add_item_to_pocket_single r1.1 (POCKETS pocket_name) item_id quantity
  (r2.1, r1.2, r2.2)

/-- Byte addresses `add_item_to_pocket_single` may touch on pocket `p`
(count byte plus the `2 * max_slots` slot bytes). -/
def inPocket (p : Pocket) (a : Nat) : Prop :=
  a = p.count ∨ (p.data ≤ a ∧ a < p.data + 2 * p.max_slots)

-- ---------------------------------------------------------------------------
-- Words, BCD, DVs (read_word, write_word, bcd_to_int, int_to_bcd, get_dvs,
-- set_dvs, is_shiny, make_shiny_dvs, make_perfect_dvs)
-- ---------------------------------------------------------------------------

/-- `read_word(data, offset)`: 16-bit big-endian read. -/
def read_word (d : Buf) (offset : Nat) : Nat :=
  (d offset <<< 8) ||| d (offset + 1)

/-- `write_word(data, offset, value)`: 16-bit big-endian write. -/
def write_word (d : Buf) (offset value : Nat) : Buf :=
  writeByte (writeByte d offset ((value >>> 8) &&& 0xFF)) (offset + 1) (value &&& 0xFF)

/-- `bcd_to_int(data, offset, length)`: base-100 accumulation, high nibble
tens, low nibble units, most-significant byte first. -/
def bcd_to_int (d : Buf) (offset length : Nat) : Nat :=
  (List.range length).foldl
    (fun value i => value * 100 + (d (offset + i) >>> 4) * 10 + (d (offset + i) &&& 0x0F)) 0

/-- `int_to_bcd(value, length)`: the source's loop peels the two lowest
decimal digits per iteration and prepends the byte, so the list is the
higher-order bytes of `value / 100` followed by the byte for `value % 100`. -/
def int_to_bcd : Nat → Nat → List Nat
  | _, 0 => []
  | value, n + 1 =>
      int_to_bcd (value / 100) n ++ [((value / 10 % 10) <<< 4) ||| (value % 10)]

/-- A buffer holding the given byte list starting at `offset` (zero
elsewhere); used to feed encoder output back to the buffer-based decoder. -/
def buf_of_bytes (bs : List Nat) (offset : Nat) : Buf :=
  fun i => bs.getD (i - offset) 0

/-- The DV dict returned by `get_dvs`: derived HP plus the four stored
nibbles. -/
structure DVS where
  hp : Nat
  atk : Nat
  def_ : Nat
  spd : Nat
  spc : Nat
deriving DecidableEq

/-- `get_dvs(data, offset)`: unpack `AAAABBBB SSSSCCCC` from a big-endian
u16 and derive the HP nibble. -/
def get_dvs (d : Buf) (offset : Nat) : DVS :=
  let dv_bytes := (d offset <<< 8) ||| d (offset + 1)
  let atk := (dv_bytes >>> 12) &&& 0xF
  let def_ := (dv_bytes >>> 8) &&& 0xF
  let spd := (dv_bytes >>> 4) &&& 0xF
  let spc := dv_bytes &&& 0xF
  { hp := ((atk &&& 1) <<< 3) ||| ((def_ &&& 1) <<< 2) ||| ((spd &&& 1) <<< 1) ||| (spc &&& 1),
    atk := atk, def_ := def_, spd := spd, spc := spc }

/-- `set_dvs(data, offset, atk, def_, spd, spc)`: pack the four nibbles into
a big-endian u16 and store it. -/
def set_dvs (d : Buf) (offset atk def_ spd spc : Nat) : Buf :=
  let dv_bytes := (atk <<< 12) ||| (def_ <<< 8) ||| (spd <<< 4) ||| spc
  writeByte (writeByte d offset ((dv_bytes >>> 8) &&& 0xFF)) (offset + 1) (dv_bytes &&& 0xFF)

/-- `is_shiny(dvs)`: Spd, Def, Spc all 10 and Atk in the listed set. -/
def is_shiny (dvs : DVS) : Bool :=
  if dvs.spd != 10 || dvs.def_ != 10 || dvs.spc != 10 then false
  else [2, 3, 6, 7, 10, 11, 14, 15].contains dvs.atk

/-- The four-nibble dicts returned by `make_shiny_dvs` / `make_perfect_dvs`. -/
structure DVQuad where
  atk : Nat
  def_ : Nat
  spd : Nat
  spc : Nat

/-- `make_shiny_dvs()`. -/
def make_shiny_dvs : DVQuad := ⟨15, 10, 10, 10⟩

/-- `make_perfect_dvs()`. -/
def make_perfect_dvs : DVQuad := ⟨15, 15, 15, 15⟩

-- ---------------------------------------------------------------------------
-- Party roster (get_pokemon_offset, get_party_pokemon, roster edits)
-- ---------------------------------------------------------------------------

/-- `get_pokemon_offset(slot)` (1-indexed). -/
def get_pokemon_offset (slot : Nat) : Nat :=
  PARTY_DATA_OFFSET + (slot - 1) * PARTY_POKEMON_SIZE

/-- The info dict returned by `get_party_pokemon` (display-only name-table
lookups omitted). -/
structure PartyPokemon where
  slot : Nat
  offset : Nat
  species : Nat
  item : Nat
  moves : List Nat
  level : Nat
  dvs : DVS
  is_shiny : Bool
  hp_ev : Nat
  atk_ev : Nat
  def_ev : Nat
  spd_ev : Nat
  spc_ev : Nat
  hp_current : Nat
  hp_max : Nat
  friendship : Nat
deriving DecidableEq

/-- `get_party_pokemon(data, slot)`: `None` when the slot is out of 1..6 or
beyond the roster count. -/
def get_party_pokemon (d : Buf) (slot : Nat) : Option PartyPokemon :=
  if slot < 1 || slot > 6 then none
  else
    let count := d PARTY_COUNT_OFFSET
    if slot > count then none
    else
      let offset := get_pokemon_offset slot
      let dvs := get_dvs d (offset + PKMN_DVS)
      some {
        slot := slot
        offset := offset
        species := d (offset + PKMN_SPECIES)
        item := d (offset + PKMN_ITEM)
        moves := [d (offset + PKMN_MOVE1), d (offset + PKMN_MOVE2),
                  d (offset + PKMN_MOVE3), d (offset + PKMN_MOVE4)]
        level := d (offset + PKMN_LEVEL)
        dvs := dvs
        is_shiny := is_shiny dvs
        hp_ev := read_word d (offset + PKMN_HP_EV)
        atk_ev := read_word d (offset + PKMN_ATK_EV)
        def_ev := read_word d (offset + PKMN_DEF_EV)
        spd_ev := read_word d (offset + PKMN_SPD_EV)
        spc_ev := read_word d (offset + PKMN_SPC_EV)
        hp_current := read_word d (offset + PKMN_HP_CURRENT)
        hp_max := read_word d (offset + PKMN_HP_MAX)
        friendship := d (offset + PKMN_FRIENDSHIP) }

/-- `make_pokemon_shiny(data, slot)`. -/
def make_pokemon_shiny (d : Buf) (slot : Nat) : Buf × Bool :=
  match get_party_pokemon d slot with
  | none => (d, false)
  | some pkmn =>
      if pkmn.is_shiny then (d, false)
      else
        (set_dvs d (pkmn.offset + PKMN_DVS)
          make_shiny_dvs.atk make_shiny_dvs.def_ make_shiny_dvs.spd make_shiny_dvs.spc, true)

/-- `max_pokemon_stats(data, slot)`. -/
def max_pokemon_stats (d : Buf) (slot : Nat) : Buf × Bool :=
  match get_party_pokemon d slot with
  | none => (d, false)
  | some pkmn =>
      let d1 := set_dvs d (pkmn.offset + PKMN_DVS) 15 15 15 15
      let d2 := write_word d1 (pkmn.offset + PKMN_HP_EV) 65535
      let d3 := write_word d2 (pkmn.offset + PKMN_ATK_EV) 65535
      let d4 := write_word d3 (pkmn.offset + PKMN_DEF_EV) 65535
      let d5 := write_word d4 (pkmn.offset + PKMN_SPD_EV) 65535
      let d6 := write_word d5 (pkmn.offset + PKMN_SPC_EV) 65535
      (d6, true)

/-- `set_pokemon_level(data, slot, level)`. -/
def set_pokemon_level (d : Buf) (slot level : Nat) : Buf × Bool :=
  match get_party_pokemon d slot with
  | none => (d, false)
  | some pkmn =>
      (writeByte d (pkmn.offset + PKMN_LEVEL) (max 1 (min 100 level)), true)

/-- `set_pokemon_move(data, slot, move_slot, move_id)`. -/
def set_pokemon_move (d : Buf) (slot move_slot move_id : Nat) : Buf × Bool :=
  match get_party_pokemon d slot with
  | none => (d, false)
  | some pkmn =>
      if move_slot < 1 || move_slot > 4 then (d, false)
      else
        (writeByte d
          (pkmn.offset + [PKMN_MOVE1, PKMN_MOVE2, PKMN_MOVE3, PKMN_MOVE4].getD (move_slot - 1) 0)
          move_id, true)

/-- `give_pokemon_item(data, slot, item_id)`. -/
def give_pokemon_item (d : Buf) (slot item_id : Nat) : Buf × Bool :=
  match get_party_pokemon d slot with
  | none => (d, false)
  | some pkmn => (writeByte d (pkmn.offset + PKMN_ITEM) item_id, true)

/-- `set_pokemon_species(data, slot, species_id, level=None)`: writes the
parallel species-list byte, the record's species byte, and (when `level` is
truthy) the clamped level. -/
def set_pokemon_species (d : Buf) (slot species_id : Nat) (level : Option Nat) :
    Buf × Bool :=
  match get_party_pokemon d slot with
  | none => (d, false)
  | some pkmn =>
      let d1 := writeByte d (PARTY_SPECIES_OFFSET + slot - 1) species_id
      let d2 := writeByte d1 (pkmn.offset + PKMN_SPECIES) species_id
      match level with
      | some l => if l ≠ 0 then (writeByte d2 (pkmn.offset + PKMN_LEVEL) (min 100 (max 1 l)), true)
                  else (d2, true)
      | none => (d2, true)

-- ---------------------------------------------------------------------------
-- Helper lemmas: checksums
-- ---------------------------------------------------------------------------

theorem calculate_checksum_congr (d d' : Buf) (start fin : Nat)
    (h : ∀ i, start ≤ i → i ≤ fin → d i = d' i) :
    calculate_checksum d start fin = calculate_checksum d' start fin := by
  unfold calculate_checksum
  have key : ∀ (l : List Nat) (acc : Nat),
      (∀ i ∈ l, start + i ≤ fin) →
      l.foldl (fun acc i => (acc + d (start + i)) % 65536) acc =
      l.foldl (fun acc i => (acc + d' (start + i)) % 65536) acc := by
    intro l
    induction l with
    | nil => intro acc _; rfl
    | cons x xs ih =>
        intro acc hmem
        simp only [List.foldl_cons]
        rw [h (start + x) (Nat.le_add_right _ _) (hmem x (List.mem_cons_self x xs)),
          ih _ (fun i hi => hmem i (List.mem_cons_of_mem x hi))]
  apply key
  intro i hi
  have := List.mem_range.mp hi
  omega

theorem calculate_checksum_writeByte_outside (d : Buf) (start fin a v : Nat)
    (h : a < start ∨ fin < a) :
    calculate_checksum (writeByte d a v) start fin = calculate_checksum d start fin := by
  apply calculate_checksum_congr
  intro i h1 h2
  unfold writeByte
  have : i ≠ a := by omega
  simp [this]

theorem calculate_checksum_lt (d : Buf) (start fin : Nat) :
    calculate_checksum d start fin < 65536 := by
  unfold calculate_checksum
  have key : ∀ (l : List Nat) (acc : Nat), acc < 65536 →
      l.foldl (fun acc i => (acc + d (start + i)) % 65536) acc < 65536 := by
    intro l
    induction l with
    | nil => intro acc h; exact h
    | cons x xs ih =>
        intro acc h
        simp only [List.foldl_cons]
        exact ih _ (Nat.mod_lt _ (by omega))
  exact key _ 0 (by omega)

theorem low_high_byte (c : Nat) (h : c < 65536) :
    c &&& 0xFF = c % 256 ∧ (c >>> 8) &&& 0xFF = c / 256 := by
  have h1 := Nat.and_pow_two_sub_one_eq_mod c 8
  have h2 := Nat.shiftRight_eq_div_pow c 8
  have h3 := Nat.and_pow_two_sub_one_eq_mod (c >>> 8) 8
  have h4 : c / 256 < 256 := by omega
  constructor
  · norm_num at h1; exact h1
  · norm_num at h2 h3
    rw [h3, h2, Nat.mod_eq_of_lt h4]

theorem update_checksum_eq (d : Buf) :
    update_checksum d =
      (writeByte
        (writeByte (after_bank1 d) CHECKSUM_OFFSET
          (calculate_checksum (after_bank1 d) CHECKSUM_DATA_START CHECKSUM_DATA_END &&& 0xFF))
        (CHECKSUM_OFFSET + 1)
        ((calculate_checksum (after_bank1 d) CHECKSUM_DATA_START CHECKSUM_DATA_END >>> 8) &&& 0xFF),
       calculate_checksum d CHECKSUM_DATA_START_BANK1 CHECKSUM_DATA_END_BANK1,
       calculate_checksum (after_bank1 d) CHECKSUM_DATA_START CHECKSUM_DATA_END) := rfl

theorem after_bank1_checksum2 (d : Buf) :
    calculate_checksum (after_bank1 d) CHECKSUM_DATA_START CHECKSUM_DATA_END =
    calculate_checksum d CHECKSUM_DATA_START CHECKSUM_DATA_END := by
  unfold after_bank1
  rw [calculate_checksum_writeByte_outside, calculate_checksum_writeByte_outside]
  · unfold CHECKSUM_OFFSET_BANK1 CHECKSUM_DATA_START CHECKSUM_DATA_END; omega
  · unfold CHECKSUM_OFFSET_BANK1 CHECKSUM_DATA_START CHECKSUM_DATA_END; omega

/-- C1: `update_checksum` (the encode step, called by `write_save`) rewrites
both banks' checksums on every call: bank 1's checksum is the byte sum over
`[0x1209, 0x1D82]` mod 65536 stored little-endian at `0x1F0D`, bank 2's is
the byte sum over `[0x2009, 0x2D68]` mod 65536 stored little-endian at
`0x2D69`; each two-byte store lies outside its own summed range. -/
theorem update_checksum_both_banks (d : Buf) :
    (write_save d 0x1F0D = calculate_checksum d 0x1209 0x1D82 % 256 ∧
     write_save d 0x1F0E = calculate_checksum d 0x1209 0x1D82 / 256 ∧
     write_save d 0x2D69 = calculate_checksum d 0x2009 0x2D68 % 256 ∧
     write_save d 0x2D6A = calculate_checksum d 0x2009 0x2D68 / 256) ∧
    (¬ (0x1209 ≤ CHECKSUM_OFFSET_BANK1 ∧ CHECKSUM_OFFSET_BANK1 ≤ 0x1D82) ∧
     ¬ (0x1209 ≤ CHECKSUM_OFFSET_BANK1 + 1 ∧ CHECKSUM_OFFSET_BANK1 + 1 ≤ 0x1D82) ∧
     ¬ (0x2009 ≤ CHECKSUM_OFFSET ∧ CHECKSUM_OFFSET ≤ 0x2D68) ∧
     ¬ (0x2009 ≤ CHECKSUM_OFFSET + 1 ∧ CHECKSUM_OFFSET + 1 ≤ 0x2D68)) := by
  constructor
  · have hc1lt := calculate_checksum_lt d CHECKSUM_DATA_START_BANK1 CHECKSUM_DATA_END_BANK1
    have hc2lt := calculate_checksum_lt d CHECKSUM_DATA_START CHECKSUM_DATA_END
    obtain ⟨hlow1, hhigh1⟩ := low_high_byte _ hc1lt
    obtain ⟨hlow2, hhigh2⟩ := low_high_byte _ hc2lt
    unfold write_save
    rw [update_checksum_eq, after_bank1_checksum2]
    refine ⟨?_, ?_, ?_, ?_⟩ <;>
      simp_all [writeByte, after_bank1, CHECKSUM_OFFSET, CHECKSUM_OFFSET_BANK1,
        CHECKSUM_DATA_START, CHECKSUM_DATA_END, CHECKSUM_DATA_START_BANK1,
        CHECKSUM_DATA_END_BANK1]
  · unfold CHECKSUM_OFFSET CHECKSUM_OFFSET_BANK1
    omega

-- ---------------------------------------------------------------------------
-- Helper lemmas: pockets
-- ---------------------------------------------------------------------------

theorem findItemIdx_lt (d : Buf) (dataOff item_id n i : Nat)
    (h : findItemIdx d dataOff item_id n = some i) : i < n := by
  induction n with
  | zero => simp [findItemIdx] at h
  | succ m ih =>
      unfold findItemIdx at h
      cases hm : findItemIdx d dataOff item_id m with
      | some j =>
          rw [hm] at h
          simp [Option.orElse] at h
          exact Nat.lt_succ_of_lt (ih (h ▸ hm))
      | none =>
          rw [hm] at h
          simp [Option.orElse] at h
          omega

/-- Zeta-reduced form of `add_item_to_pocket_single`. -/
theorem add_single_eq (d : Buf) (p : Pocket) (item_id quantity : Nat) :
    add_item_to_pocket_single d p item_id quantity =
      match findItemIdx d p.data item_id (d p.count) with
      | some i =>
          (writeByte d (p.data + (2 * i + 1)) (min quantity 99),
           .updated (d (p.data + (2 * i + 1))) (min quantity 99))
      | none =>
          if d p.count < p.max_slots then
            (writeByte
              (writeByte (writeByte d (p.data + 2 * d p.count) item_id)
                (p.data + (2 * d p.count + 1)) (min quantity 99))
              p.count (d p.count + 1), .added (min quantity 99))
          else (d, .pocketFull) := rfl

theorem findItemIdx_congr (d d' : Buf) (dataOff dataOff' item_id n : Nat)
    (h : ∀ k < n, d (dataOff + 2 * k) = d' (dataOff' + 2 * k)) :
    findItemIdx d dataOff item_id n = findItemIdx d' dataOff' item_id n := by
  induction n with
  | zero => rfl
  | succ m ih =>
      unfold findItemIdx
      rw [ih (fun k hk => h k (by omega)), h m (by omega)]

/-- Frame: the single-pocket edit writes only inside the pocket's footprint
(given the count byte is within capacity). -/
theorem add_single_frame (d : Buf) (p : Pocket) (item_id quantity a : Nat)
    (hcount : d p.count ≤ p.max_slots) (ha : ¬ inPocket p a) :
    (add_item_to_pocket_single d p item_id quantity).1 a = d a := by
  unfold inPocket at ha
  push_neg at ha
  cases hf : findItemIdx d p.data item_id (d p.count) with
  | some i =>
      have hi := findItemIdx_lt _ _ _ _ _ hf
      have hne : a ≠ p.data + (2 * i + 1) := by
        intro heq; have := ha.2 (by omega); omega
      simp only [add_single_eq, hf, writeByte]
      simp [hne]
  | none =>
      simp only [add_single_eq, hf]
      by_cases hlt : d p.count < p.max_slots
      · have h1 : a ≠ p.count := ha.1
        have h2 : a ≠ p.data + 2 * d p.count := by
          intro heq; have := ha.2 (by omega); omega
        have h3 : a ≠ p.data + (2 * d p.count + 1) := by
          intro heq; have := ha.2 (by omega); omega
        simp [hlt, writeByte, h1, h2, h3]
      · simp [hlt]

/-- Correspondence: the single-pocket edit behaves identically on two pockets
of equal capacity whose footprints hold the same bytes. -/
theorem add_single_corr (d d' : Buf) (p p' : Pocket) (item_id quantity : Nat)
    (hmax : p.max_slots = p'.max_slots)
    (hcl : p.count < p.data) (hcl' : p'.count < p'.data)
    (hcount : d p.count ≤ p.max_slots)
    (hc : d p.count = d' p'.count)
    (hdata : ∀ i < 2 * p.max_slots, d (p.data + i) = d' (p'.data + i)) :
    (add_item_to_pocket_single d p item_id quantity).2 =
      (add_item_to_pocket_single d' p' item_id quantity).2 ∧
    (add_item_to_pocket_single d p item_id quantity).1 p.count =
      (add_item_to_pocket_single d' p' item_id quantity).1 p'.count ∧
    ∀ i < 2 * p.max_slots,
      (add_item_to_pocket_single d p item_id quantity).1 (p.data + i) =
        (add_item_to_pocket_single d' p' item_id quantity).1 (p'.data + i) := by
  have hfind : findItemIdx d p.data item_id (d p.count) =
      findItemIdx d' p'.data item_id (d' p'.count) := by
    rw [← hc]
    apply findItemIdx_congr
    intro k hk
    exact hdata (2 * k) (by omega)
  cases hf : findItemIdx d p.data item_id (d p.count) with
  | some i =>
      have hf' : findItemIdx d' p'.data item_id (d' p'.count) = some i := by
        rw [← hfind, hf]
      have hi : i < d p.count := findItemIdx_lt _ _ _ _ _ hf
      have hold : d (p.data + (2 * i + 1)) = d' (p'.data + (2 * i + 1)) :=
        hdata (2 * i + 1) (by omega)
      simp only [add_single_eq, hf, hf']
      refine ⟨by rw [hold], ?_, ?_⟩
      · have h1 : p.count ≠ p.data + (2 * i + 1) := by omega
        have h2 : p'.count ≠ p'.data + (2 * i + 1) := by omega
        simp only [writeByte, if_neg h1, if_neg h2]
        exact hc
      · intro j hj
        by_cases hji : j = 2 * i + 1
        · subst hji; simp [writeByte]
        · have n1 : p.data + j ≠ p.data + (2 * i + 1) := by omega
          have n2 : p'.data + j ≠ p'.data + (2 * i + 1) := by omega
          simp only [writeByte, if_neg n1, if_neg n2]
          exact hdata j hj
  | none =>
      have hf' : findItemIdx d' p'.data item_id (d' p'.count) = none := by
        rw [← hfind, hf]
      simp only [add_single_eq, hf, hf']
      by_cases hlt : d p.count < p.max_slots
      · have hlt' : d' p'.count < p'.max_slots := by omega
        rw [if_pos hlt, if_pos hlt']
        refine ⟨rfl, ?_, ?_⟩
        · simp [writeByte, hc]
        · intro j hj
          have n1 : p.data + j ≠ p.count := by omega
          have n2 : p'.data + j ≠ p'.count := by omega
          simp only [writeByte, if_neg n1, if_neg n2, ← hc]
          by_cases hj1 : j = 2 * d p.count + 1
          · subst hj1; simp
          · have m1 : p.data + j ≠ p.data + (2 * d p.count + 1) := by omega
            have m2 : p'.data + j ≠ p'.data + (2 * d p.count + 1) := by omega
            rw [if_neg m1, if_neg m2]
            by_cases hj0 : j = 2 * d p.count
            · subst hj0; simp
            · have m3 : p.data + j ≠ p.data + 2 * d p.count := by omega
              have m4 : p'.data + j ≠ p'.data + 2 * d p.count := by omega
              rw [if_neg m3, if_neg m4]
              exact hdata j hj
      · have hlt' : ¬ d' p'.count < p'.max_slots := by omega
        rw [if_neg hlt, if_neg hlt']
        exact ⟨rfl, hc, hdata⟩

/-- Applying the single-pocket edit to two disjoint, equal-capacity,
value-identical pocket copies in sequence yields equal results and
value-identical copies again. -/
theorem add_pocket_pair (d : Buf) (p1 p2 : Pocket) (item_id quantity : Nat)
    (hmax : p1.max_slots = p2.max_slots)
    (hcl1 : p1.count < p1.data) (hcl2 : p2.count < p2.data)
    (hdisj12 : ∀ a, inPocket p1 a → ¬ inPocket p2 a)
    (hdisj21 : ∀ a, inPocket p2 a → ¬ inPocket p1 a)
    (hcount : d p2.count ≤ p2.max_slots)
    (heqc : d p1.count = d p2.count)
    (heqd : ∀ i < 2 * p2.max_slots, d (p1.data + i) = d (p2.data + i)) :
    (add_item_to_pocket_single d p1 item_id quantity).2 =
      (add_item_to_pocket_single (add_item_to_pocket_single d p1 item_id quantity).1
        p2 item_id quantity).2 ∧
    (add_item_to_pocket_single (add_item_to_pocket_single d p1 item_id quantity).1
        p2 item_id quantity).1 p1.count =
      (add_item_to_pocket_single (add_item_to_pocket_single d p1 item_id quantity).1
        p2 item_id quantity).1 p2.count ∧
    ∀ i < 2 * p2.max_slots,
      (add_item_to_pocket_single (add_item_to_pocket_single d p1 item_id quantity).1
          p2 item_id quantity).1 (p1.data + i) =
        (add_item_to_pocket_single (add_item_to_pocket_single d p1 item_id quantity).1
            p2 item_id quantity).1 (p2.data + i) := by
  have hcount1 : d p1.count ≤ p1.max_slots := by rw [heqc, hmax]; exact hcount
  set d1 := (add_item_to_pocket_single d p1 item_id quantity).1 with hd1
  -- step 1 does not touch pocket 2's footprint
  have hframe1 : ∀ a, inPocket p2 a → d1 a = d a := by
    intro a ha
    exact add_single_frame d p1 item_id quantity a hcount1 (hdisj21 a ha)
  have hc2' : d1 p2.count = d p2.count := hframe1 _ (Or.inl rfl)
  have hcount2 : d1 p2.count ≤ p2.max_slots := by rw [hc2']; exact hcount
  -- step 2 does not touch pocket 1's footprint
  have hframe2 : ∀ a, inPocket p1 a →
      (add_item_to_pocket_single d1 p2 item_id quantity).1 a = d1 a := by
    intro a ha
    exact add_single_frame d1 p2 item_id quantity a hcount2 (hdisj12 a ha)
  -- step 1 on pocket 1 corresponds to step 2 on pocket 2
  have hcorr := add_single_corr d d1 p1 p2 item_id quantity hmax hcl1 hcl2 hcount1
    (by rw [heqc, hc2'])
    (by
      intro i hi
      rw [hframe1 (p2.data + i) (Or.inr ⟨Nat.le_add_right _ _, by omega⟩)]
      exact heqd i (by rw [hmax] at hi; exact hi))
  rw [hmax] at hcorr
  refine ⟨hcorr.1, ?_, ?_⟩
  · rw [hframe2 p1.count (Or.inl rfl), ← hcorr.2.1]
  · intro i hi
    rw [hframe2 (p1.data + i) (Or.inr ⟨Nat.le_add_right _ _, by omega⟩)]
    exact hcorr.2.2 i hi

/-- C2: for each pocket name (`items` or `balls`), if the two bank copies
(count byte and all slot bytes) hold identical values before the call, then
after `add_item_to_pocket` the two bank copies again hold identical values,
and the operation returns one result per bank (bank 1's and bank 2's
single-pocket outcomes) rather than a single silent success. -/
theorem add_item_to_pocket_bank_redundancy (d : Buf) (name : PocketName)
    (item_id quantity : Nat)
    (hcount : d ((POCKETS name).count) ≤ (POCKETS name).max_slots)
    (heqc : d ((POCKETS_BANK1 name).count) = d ((POCKETS name).count))
    (heqd : ∀ i < 2 * (POCKETS name).max_slots,
      d ((POCKETS_BANK1 name).data + i) = d ((POCKETS name).data + i)) :
    ((add_item_to_pocket d name item_id quantity).1 ((POCKETS_BANK1 name).count) =
      (add_item_to_pocket d name item_id quantity).1 ((POCKETS name).count)) ∧
    (∀ i < 2 * (POCKETS name).max_slots,
      (add_item_to_pocket d name item_id quantity).1 ((POCKETS_BANK1 name).data + i) =
        (add_item_to_pocket d name item_id quantity).1 ((POCKETS name).data + i)) ∧
    (add_item_to_pocket d name item_id quantity).2 =
      ((add_item_to_pocket_single d (POCKETS_BANK1 name) item_id quantity).2,
       (add_item_to_pocket_single
         (add_item_to_pocket_single d (POCKETS_BANK1 name) item_id quantity).1
         (POCKETS name) item_id quantity).2) := by
  have key := add_pocket_pair d (POCKETS_BANK1 name) (POCKETS name) item_id quantity
    (by cases name <;> rfl)
    (by cases name <;> simp [POCKETS_BANK1])
    (by cases name <;> simp [POCKETS])
    (by cases name <;> (intro a ha; simp [inPocket, POCKETS, POCKETS_BANK1] at *; omega))
    (by cases name <;> (intro a ha; simp [inPocket, POCKETS, POCKETS_BANK1] at *; omega))
    hcount heqc heqd
  exact ⟨key.2.1, key.2.2, rfl⟩

/-- Witness for C2: on the all-zero buffer both bank copies of the balls
pocket stay identical after adding a Master Ball. -/
theorem add_item_to_pocket_bank_redundancy_witness :
    ((add_item_to_pocket (fun _ => 0) .balls 1 99).1 ((POCKETS_BANK1 .balls).count) =
      (add_item_to_pocket (fun _ => 0) .balls 1 99).1 ((POCKETS .balls).count)) ∧
    (∀ i < 2 * (POCKETS PocketName.balls).max_slots,
      (add_item_to_pocket (fun _ => 0) .balls 1 99).1 ((POCKETS_BANK1 .balls).data + i) =
        (add_item_to_pocket (fun _ => 0) .balls 1 99).1 ((POCKETS .balls).data + i)) ∧
    (add_item_to_pocket (fun _ => 0) .balls 1 99).2 =
      ((add_item_to_pocket_single (fun _ => 0) (POCKETS_BANK1 .balls) 1 99).2,
       (add_item_to_pocket_single
         (add_item_to_pocket_single (fun _ => 0) (POCKETS_BANK1 .balls) 1 99).1
         (POCKETS .balls) 1 99).2) :=
  add_item_to_pocket_bank_redundancy (fun _ => 0) .balls 1 99
    (by decide) rfl (fun i _ => rfl)

-- ---------------------------------------------------------------------------
-- Helper lemmas: DV packing
-- ---------------------------------------------------------------------------

set_option maxHeartbeats 2000000 in
/-- Packing four nibbles with shifts and ors equals the base-16 sum. -/
theorem pack_eq_arith : ∀ a < 16, ∀ b < 16, ∀ s < 16, ∀ c < 16,
    (a <<< 12) ||| (b <<< 8) ||| (s <<< 4) ||| c = a * 4096 + b * 256 + s * 16 + c := by
  decide

set_option maxHeartbeats 2000000 in
set_option maxRecDepth 2000 in
/-- Recombining two bytes with a shift and an or equals the base-256 sum. -/
theorem byte_recombine : ∀ hi < 256, ∀ lo < 256, (hi <<< 8) ||| lo = hi * 256 + lo := by
  decide

theorem and_255_eq (x : Nat) : x &&& 255 = x % 256 := by
  have h := Nat.and_pow_two_sub_one_eq_mod x 8
  norm_num at h
  exact h

theorem and_15_eq (x : Nat) : x &&& 15 = x % 16 := by
  have h := Nat.and_pow_two_sub_one_eq_mod x 4
  norm_num at h
  exact h

theorem shr_eq_div (x k : Nat) : x >>> k = x / 2 ^ k :=
  Nat.shiftRight_eq_div_pow x k

/-- Bit-level facts about the packed DV word: the two stored bytes recombine
to the packed word, and the four nibble extractions invert the packing. -/
theorem dv_roundtrip_bits (a b s c : Nat)
    (ha : a < 16) (hb : b < 16) (hs : s < 16) (hc : c < 16) :
    ((((a <<< 12) ||| (b <<< 8) ||| (s <<< 4) ||| c) >>> 8) &&& 255) <<< 8 |||
        (((a <<< 12) ||| (b <<< 8) ||| (s <<< 4) ||| c) &&& 255) =
      (a <<< 12) ||| (b <<< 8) ||| (s <<< 4) ||| c ∧
    (((a <<< 12) ||| (b <<< 8) ||| (s <<< 4) ||| c) >>> 12) &&& 15 = a ∧
    (((a <<< 12) ||| (b <<< 8) ||| (s <<< 4) ||| c) >>> 8) &&& 15 = b ∧
    (((a <<< 12) ||| (b <<< 8) ||| (s <<< 4) ||| c) >>> 4) &&& 15 = s ∧
    ((a <<< 12) ||| (b <<< 8) ||| (s <<< 4) ||| c) &&& 15 = c := by
  have hP := pack_eq_arith a ha b hb s hs c hc
  refine ⟨?_, ?_, ?_, ?_, ?_⟩
  · rw [shr_eq_div, and_255_eq, and_255_eq,
      byte_recombine _ (Nat.mod_lt _ (by omega)) _ (Nat.mod_lt _ (by omega)), hP]
    norm_num
    omega
  · rw [shr_eq_div, and_15_eq, hP]; norm_num; omega
  · rw [shr_eq_div, and_15_eq, hP]; norm_num; omega
  · rw [shr_eq_div, and_15_eq, hP]; norm_num; omega
  · rw [and_15_eq, hP]; omega

/-- Reading back the two bytes just stored by a big-endian two-byte write. -/
theorem write2_read (d : Buf) (off hi lo : Nat) :
    writeByte (writeByte d off hi) (off + 1) lo off = hi ∧
    writeByte (writeByte d off hi) (off + 1) lo (off + 1) = lo := by
  have h1 : off ≠ off + 1 := by omega
  constructor <;> simp [writeByte, h1]

/-- Unfolded form of `get_dvs`. -/
theorem get_dvs_eq (d : Buf) (offset : Nat) :
    get_dvs d offset =
      { hp := ((((d offset <<< 8 ||| d (offset + 1)) >>> 12) &&& 15 &&& 1) <<< 3) |||
              ((((d offset <<< 8 ||| d (offset + 1)) >>> 8) &&& 15 &&& 1) <<< 2) |||
              ((((d offset <<< 8 ||| d (offset + 1)) >>> 4) &&& 15 &&& 1) <<< 1) |||
              ((d offset <<< 8 ||| d (offset + 1)) &&& 15 &&& 1),
        atk := ((d offset <<< 8 ||| d (offset + 1)) >>> 12) &&& 15,
        def_ := ((d offset <<< 8 ||| d (offset + 1)) >>> 8) &&& 15,
        spd := ((d offset <<< 8 ||| d (offset + 1)) >>> 4) &&& 15,
        spc := (d offset <<< 8 ||| d (offset + 1)) &&& 15 } := rfl

/-- Unfolded form of `set_dvs`. -/
theorem set_dvs_eq (d : Buf) (offset atk def_ spd spc : Nat) :
    set_dvs d offset atk def_ spd spc =
      writeByte
        (writeByte d offset (((atk <<< 12 ||| def_ <<< 8 ||| spd <<< 4 ||| spc) >>> 8) &&& 255))
        (offset + 1) ((atk <<< 12 ||| def_ <<< 8 ||| spd <<< 4 ||| spc) &&& 255) := rfl

/-- C5: for nibbles in `[0,15]`, `get_dvs` after `set_dvs` returns exactly the
written tuple, with the derived HP nibble
`((atk&1)<<3) | ((def&1)<<2) | ((spd&1)<<1) | (spc&1)`. -/
theorem set_get_dvs_roundtrip (d : Buf) (offset atk def_ spd spc : Nat)
    (ha : atk < 16) (hb : def_ < 16) (hs : spd < 16) (hc : spc < 16) :
    get_dvs (set_dvs d offset atk def_ spd spc) offset =
      { hp := ((atk &&& 1) <<< 3) ||| ((def_ &&& 1) <<< 2) |||
              ((spd &&& 1) <<< 1) ||| (spc &&& 1),
        atk := atk, def_ := def_, spd := spd, spc := spc } := by
  obtain ⟨e0, e1, e2, e3, e4⟩ := dv_roundtrip_bits atk def_ spd spc ha hb hs hc
  obtain ⟨r1, r2⟩ := write2_read d offset
    (((atk <<< 12 ||| def_ <<< 8 ||| spd <<< 4 ||| spc) >>> 8) &&& 255)
    ((atk <<< 12 ||| def_ <<< 8 ||| spd <<< 4 ||| spc) &&& 255)
  rw [get_dvs_eq, set_dvs_eq, r1, r2, e0, e1, e2, e3, e4]

/-- Witness for C5: the round trip at nibbles (1,2,3,4) on the zero buffer. -/
theorem set_get_dvs_roundtrip_witness :
    get_dvs (set_dvs (fun _ => 0) 0 1 2 3 4) 0 = ⟨10, 1, 2, 3, 4⟩ := by
  have h := set_get_dvs_roundtrip (fun _ => 0) 0 1 2 3 4
    (by decide) (by decide) (by decide) (by decide)
  simpa using h

/-- C6: `is_shiny` holds exactly when Spd, Def and Spc are all 10 and Atk is
one of 2, 3, 6, 7, 10, 11, 14, 15; in particular (Atk,Def,Spd,Spc) =
(15,10,10,10) is shiny, (15,15,15,15) is not, and (10,10,10,10) is shiny. -/
theorem is_shiny_iff :
    (∀ dvs : DVS, is_shiny dvs = true ↔
      dvs.spd = 10 ∧ dvs.def_ = 10 ∧ dvs.spc = 10 ∧
      (dvs.atk = 2 ∨ dvs.atk = 3 ∨ dvs.atk = 6 ∨ dvs.atk = 7 ∨
       dvs.atk = 10 ∨ dvs.atk = 11 ∨ dvs.atk = 14 ∨ dvs.atk = 15)) ∧
    is_shiny ⟨0, 15, 10, 10, 10⟩ = true ∧
    is_shiny ⟨0, 15, 15, 15, 15⟩ = false ∧
    is_shiny ⟨0, 10, 10, 10, 10⟩ = true := by
  refine ⟨fun dvs => ?_, by decide, by decide, by decide⟩
  by_cases h1 : dvs.spd = 10 <;> by_cases h2 : dvs.def_ = 10 <;> by_cases h3 : dvs.spc = 10 <;>
    simp [is_shiny, h1, h2, h3, List.contains, List.elem_iff, List.mem_cons]

-- ---------------------------------------------------------------------------
-- Failure no-ops (C3) and upsert semantics (C4)
-- ---------------------------------------------------------------------------

theorem get_party_pokemon_none (d : Buf) (slot : Nat)
    (h : d PARTY_COUNT_OFFSET < slot) :
    get_party_pokemon d slot = none := by
  unfold get_party_pokemon
  by_cases h6 : slot < 1 || slot > 6
  · rw [if_pos h6]
  · rw [if_neg h6]
    simp [h]

/-- C3: failing edits leave the buffer byte-identical: upserting a new item
into a full pocket reports `Pocket full!` and writes nothing, and every
roster edit addressed past the roster count reports failure and applies no
mutation. -/
theorem failed_edits_are_noops :
    (∀ (d : Buf) (p : Pocket) (item_id quantity : Nat),
      d p.count = p.max_slots →
      findItemIdx d p.data item_id (d p.count) = none →
      add_item_to_pocket_single d p item_id quantity = (d, .pocketFull)) ∧
    (∀ (d : Buf) (slot : Nat), d PARTY_COUNT_OFFSET < slot →
      make_pokemon_shiny d slot = (d, false) ∧
      max_pokemon_stats d slot = (d, false) ∧
      (∀ level, set_pokemon_level d slot level = (d, false)) ∧
      (∀ species_id level, set_pokemon_species d slot species_id level = (d, false)) ∧
      (∀ move_slot move_id, set_pokemon_move d slot move_slot move_id = (d, false)) ∧
      (∀ item_id, give_pokemon_item d slot item_id = (d, false))) := by
  constructor
  · intro d p item_id quantity hfull hfind
    rw [add_single_eq, hfind]
    simp [hfull]
  · intro d slot hslot
    have hnone := get_party_pokemon_none d slot hslot
    refine ⟨?_, ?_, ?_, ?_, ?_, ?_⟩ <;>
      simp [make_pokemon_shiny, max_pokemon_stats, set_pokemon_level,
        set_pokemon_species, set_pokemon_move, give_pokemon_item, hnone]

/-- Witness for C3: a full balls pocket (count byte 12, no slot holding item
5) rejects the upsert untouched, and an edit on slot 1 of an empty roster
fails untouched. -/
theorem failed_edits_are_noops_witness :
    add_item_to_pocket_single (fun _ => 12) (POCKETS .balls) 5 99 =
      ((fun _ => 12), .pocketFull) ∧
    make_pokemon_shiny (fun _ => 0) 1 = ((fun _ => 0), false) :=
  ⟨failed_edits_are_noops.1 (fun _ => 12) (POCKETS .balls) 5 99 (by decide) (by decide),
   (failed_edits_are_noops.2 (fun _ => 0) 1 (by decide)).1⟩

/-- C4: upsert semantics of `add_item_to_pocket_single`: a found item has its
quantity byte overwritten with the clamped quantity and the count unchanged;
a missing item with spare capacity is appended at index `count` and the
count incremented; and the count-0 scenario upsert(0x01,99) then
upsert(0x01,50) yields count 1 with slot 0 = (0x01,50) and no duplicate. -/
theorem add_single_upsert (d : Buf) (p : Pocket) (item_id quantity : Nat)
    (hp : p.count < p.data) :
    (∀ i, findItemIdx d p.data item_id (d p.count) = some i →
      add_item_to_pocket_single d p item_id quantity =
        (writeByte d (p.data + (2 * i + 1)) (min quantity 99),
         .updated (d (p.data + (2 * i + 1))) (min quantity 99)) ∧
      (add_item_to_pocket_single d p item_id quantity).1 p.count = d p.count) ∧
    (findItemIdx d p.data item_id (d p.count) = none →
      d p.count < p.max_slots →
      (add_item_to_pocket_single d p item_id quantity).1 (p.data + 2 * d p.count) = item_id ∧
      (add_item_to_pocket_single d p item_id quantity).1 (p.data + (2 * d p.count + 1)) =
        min quantity 99 ∧
      (add_item_to_pocket_single d p item_id quantity).1 p.count = d p.count + 1 ∧
      (add_item_to_pocket_single d p item_id quantity).2 = .added (min quantity 99)) ∧
    ((add_item_to_pocket_single (fun _ => 0) (POCKETS .balls) 1 99).1
        ((POCKETS .balls).count) = 1 ∧
     (add_item_to_pocket_single (fun _ => 0) (POCKETS .balls) 1 99).1
        ((POCKETS .balls).data) = 1 ∧
     (add_item_to_pocket_single (fun _ => 0) (POCKETS .balls) 1 99).1
        ((POCKETS .balls).data + 1) = 99 ∧
     (add_item_to_pocket_single
        (add_item_to_pocket_single (fun _ => 0) (POCKETS .balls) 1 99).1
        (POCKETS .balls) 1 50).1 ((POCKETS .balls).count) = 1 ∧
     (add_item_to_pocket_single
        (add_item_to_pocket_single (fun _ => 0) (POCKETS .balls) 1 99).1
        (POCKETS .balls) 1 50).1 ((POCKETS .balls).data) = 1 ∧
     (add_item_to_pocket_single
        (add_item_to_pocket_single (fun _ => 0) (POCKETS .balls) 1 99).1
        (POCKETS .balls) 1 50).1 ((POCKETS .balls).data + 1) = 50) := by
  refine ⟨?_, ?_, by decide⟩
  · intro i hfind
    have hi := findItemIdx_lt _ _ _ _ _ hfind
    have hne : p.count ≠ p.data + (2 * i + 1) := by omega
    constructor
    · simp only [add_single_eq, hfind]
    · simp only [add_single_eq, hfind]
      simp [writeByte, hne]
  · intro hfind hlt
    simp only [add_single_eq, hfind]
    rw [if_pos hlt]
    have n1 : p.data + 2 * d p.count ≠ p.count := by omega
    have n2 : p.data + (2 * d p.count + 1) ≠ p.count := by omega
    have n3 : p.data + 2 * d p.count ≠ p.data + (2 * d p.count + 1) := by omega
    refine ⟨?_, ?_, ?_, rfl⟩ <;> simp [writeByte, n1, n2, n3]

/-- Witness for C4: appending item 1 to the empty balls pocket of the
all-zero buffer stores the new slot and increments the count. -/
theorem add_single_upsert_witness :
    (add_item_to_pocket_single (fun _ => 0) (POCKETS .balls) 1 99).1
      ((POCKETS .balls).data + 2 * ((fun _ => 0 : Buf) ((POCKETS .balls).count))) = 1 ∧
    (add_item_to_pocket_single (fun _ => 0) (POCKETS .balls) 1 99).1
      ((POCKETS .balls).count) = (fun _ => 0 : Buf) ((POCKETS .balls).count) + 1 ∧
    (add_item_to_pocket_single (fun _ => 0) (POCKETS .balls) 1 99).2 = .added (min 99 99) := by
  have h := (add_single_upsert (fun _ => 0) (POCKETS .balls) 1 99 (by decide)).2.1
    (by decide) (by decide)
  exact ⟨h.1, h.2.2.1, h.2.2.2⟩

-- ---------------------------------------------------------------------------
-- Species updates (C7)
-- ---------------------------------------------------------------------------

theorem get_party_pokemon_occupied (d : Buf) (slot : Nat)
    (h1 : 1 ≤ slot) (h6 : slot ≤ 6) (hc : slot ≤ d PARTY_COUNT_OFFSET) :
    ∃ pkmn, get_party_pokemon d slot = some pkmn ∧
      pkmn.offset = get_pokemon_offset slot := by
  unfold get_party_pokemon
  have hb : ¬ (slot < 1 || slot > 6) = true := by simp; omega
  rw [if_neg hb]
  have hb2 : ¬ slot > d PARTY_COUNT_OFFSET := by omega
  simp [hb2]

/-- C7: for an occupied roster slot, `set_pokemon_species` writes the species
id both into the record's species byte (the record sits at
`PARTY_DATA_OFFSET + (slot-1)*48`) and into the parallel species-list byte at
`PARTY_SPECIES_OFFSET + (slot-1)`, and reports success. -/
theorem set_pokemon_species_updates_both (d : Buf) (slot species_id : Nat)
    (level : Option Nat)
    (h1 : 1 ≤ slot) (h6 : slot ≤ 6) (hc : slot ≤ d PARTY_COUNT_OFFSET) :
    (set_pokemon_species d slot species_id level).1 (PARTY_SPECIES_OFFSET + slot - 1) =
      species_id ∧
    (set_pokemon_species d slot species_id level).1
      (get_pokemon_offset slot + PKMN_SPECIES) = species_id ∧
    get_pokemon_offset slot = PARTY_DATA_OFFSET + (slot - 1) * 48 ∧
    (set_pokemon_species d slot species_id level).2 = true := by
  obtain ⟨pkmn, hsome, hoff⟩ := get_party_pokemon_occupied d slot h1 h6 hc
  unfold set_pokemon_species
  rw [hsome]
  simp only []
  rw [hoff]
  have e1 : PARTY_SPECIES_OFFSET + slot - 1 ≠ get_pokemon_offset slot + PKMN_SPECIES := by
    unfold get_pokemon_offset PARTY_SPECIES_OFFSET PARTY_DATA_OFFSET PKMN_SPECIES
      PARTY_POKEMON_SIZE
    omega
  have e2 : PARTY_SPECIES_OFFSET + slot - 1 ≠ get_pokemon_offset slot + PKMN_LEVEL := by
    unfold get_pokemon_offset PARTY_SPECIES_OFFSET PARTY_DATA_OFFSET PKMN_LEVEL
      PARTY_POKEMON_SIZE
    omega
  have e3 : get_pokemon_offset slot + PKMN_SPECIES ≠ get_pokemon_offset slot + PKMN_LEVEL := by
    unfold PKMN_SPECIES PKMN_LEVEL
    omega
  refine ⟨?_, ?_, ?_, ?_⟩
  · cases level with
    | none => simp [writeByte, e1]
    | some l =>
        by_cases hl : l ≠ 0 <;> simp [hl, writeByte, e1, e2]
  · cases level with
    | none => simp [writeByte]
    | some l =>
        by_cases hl : l ≠ 0 <;> simp [hl, writeByte, e3]
  · unfold get_pokemon_offset PARTY_POKEMON_SIZE; rfl
  · cases level with
    | none => rfl
    | some l => by_cases hl : l ≠ 0 <;> simp [hl]

/-- Witness for C7: `set_species(slot=1, species_id=245)` on a roster of one
updates both the species-list byte at index 0 and the record byte. -/
theorem set_pokemon_species_updates_both_witness :
    (set_pokemon_species (fun _ => 1) 1 245 none).1 (PARTY_SPECIES_OFFSET + 1 - 1) = 245 ∧
    (set_pokemon_species (fun _ => 1) 1 245 none).1
      (get_pokemon_offset 1 + PKMN_SPECIES) = 245 ∧
    get_pokemon_offset 1 = PARTY_DATA_OFFSET + (1 - 1) * 48 ∧
    (set_pokemon_species (fun _ => 1) 1 245 none).2 = true :=
  set_pokemon_species_updates_both (fun _ => 1) 1 245 none
    (by decide) (by decide) (by decide)

-- ---------------------------------------------------------------------------
-- BCD (C8, C9)
-- ---------------------------------------------------------------------------

/-- Decoding a BCD byte built from two decimal digits recovers the digits. -/
theorem bcd_byte_digits : ∀ hi < 10, ∀ lo < 10,
    ((hi <<< 4) ||| lo) >>> 4 = hi ∧ ((hi <<< 4) ||| lo) &&& 15 = lo := by
  decide

theorem bcd_to_int3_eq (d : Buf) (off : Nat) :
    bcd_to_int d off 3 =
      ((0 * 100 + (d (off + 0) >>> 4) * 10 + (d (off + 0) &&& 15)) * 100 +
        (d (off + 1) >>> 4) * 10 + (d (off + 1) &&& 15)) * 100 +
        (d (off + 2) >>> 4) * 10 + (d (off + 2) &&& 15) := rfl

theorem int_to_bcd3_eq (v : Nat) :
    int_to_bcd v 3 =
      [((v / 100 / 100 / 10 % 10) <<< 4) ||| (v / 100 / 100 % 10),
       ((v / 100 / 10 % 10) <<< 4) ||| (v / 100 % 10),
       ((v / 10 % 10) <<< 4) ||| (v % 10)] := rfl

/-- C8: BCD round trip: for `v ≤ 999999`, decoding the 3-byte encoding of `v`
(placed at any offset) returns `v`. -/
theorem bcd_round_trip (v offset : Nat) (h : v ≤ 999999) :
    bcd_to_int (buf_of_bytes (int_to_bcd v 3) offset) offset 3 = v := by
  rw [bcd_to_int3_eq]
  have hread : ∀ i, buf_of_bytes (int_to_bcd v 3) offset (offset + i) =
      (int_to_bcd v 3).getD i 0 := by
    intro i
    unfold buf_of_bytes
    congr 1
    omega
  rw [hread 0, hread 1, hread 2, int_to_bcd3_eq]
  simp only [List.getD, List.get?, Option.getD]
  obtain ⟨a1, a2⟩ := bcd_byte_digits (v / 100 / 100 / 10 % 10) (by omega)
    (v / 100 / 100 % 10) (by omega)
  obtain ⟨b1, b2⟩ := bcd_byte_digits (v / 100 / 10 % 10) (by omega)
    (v / 100 % 10) (by omega)
  obtain ⟨c1, c2⟩ := bcd_byte_digits (v / 10 % 10) (by omega) (v % 10) (by omega)
  rw [a1, a2, b1, b2, c1, c2]
  omega

/-- Witness for C8: round trip of 123456 stored at offset 5. -/
theorem bcd_round_trip_witness :
    bcd_to_int (buf_of_bytes (int_to_bcd 123456 3) 5) 5 3 = 123456 :=
  bcd_round_trip 123456 5 (by decide)

/-- Counterexample for C9: `int_to_bcd 1000000 3` silently truncates to the
low-order six digits — it equals the encoding of `1000000 % 10^6 = 0`
(bytes `[0,0,0]`) and is not the saturated encoding of 999999. -/
theorem int_to_bcd_no_saturation :
    int_to_bcd 1000000 3 = [0, 0, 0] ∧
    int_to_bcd 1000000 3 = int_to_bcd (1000000 % 1000000) 3 ∧
    int_to_bcd 1000000 3 ≠ int_to_bcd 999999 3 := by
  decide

/-- C9 (amended): for every value exceeding 999999, `int_to_bcd(value, 3)`
neither fails nor saturates: it silently encodes the truncated low-order six
decimal digits, `int_to_bcd v 3 = int_to_bcd (v % 10^6) 3`. -/
theorem int_to_bcd_truncates (v : Nat) (h : 999999 < v) :
    int_to_bcd v 3 = int_to_bcd (v % 1000000) 3 := by
  rw [int_to_bcd3_eq, int_to_bcd3_eq]
  have e1 : v % 10 = v % 1000000 % 10 := by omega
  have e2 : v / 10 % 10 = v % 1000000 / 10 % 10 := by omega
  have e3 : v / 100 % 10 = v % 1000000 / 100 % 10 := by omega
  have e4 : v / 100 / 10 % 10 = v % 1000000 / 100 / 10 % 10 := by omega
  have e5 : v / 100 / 100 % 10 = v % 1000000 / 100 / 100 % 10 := by omega
  have e6 : v / 100 / 100 / 10 % 10 = v % 1000000 / 100 / 100 / 10 % 10 := by omega
  rw [e1, e2, e3, e4, e5, e6]

/-- Witness for C9's amended claim at 1234567. -/
theorem int_to_bcd_truncates_witness :
    int_to_bcd 1234567 3 = int_to_bcd (1234567 % 1000000) 3 :=
  int_to_bcd_truncates 1234567 (by decide)

-- ---------------------------------------------------------------------------
-- make_pokemon_shiny (C10)
-- ---------------------------------------------------------------------------

/-- Reading back the shiny DVs written by `make_pokemon_shiny`: the derived
HP nibble of DV tuple (15,10,10,10) is 8, not 15. -/
theorem get_set_shiny_dvs (d : Buf) (off : Nat) :
    get_dvs (set_dvs d off 15 10 10 10) off = ⟨8, 15, 10, 10, 10⟩ := by
  obtain ⟨r1, r2⟩ := write2_read d off
    (((15 <<< 12 ||| 10 <<< 8 ||| 10 <<< 4 ||| 10) >>> 8) &&& 255)
    ((15 <<< 12 ||| 10 <<< 8 ||| 10 <<< 4 ||| 10) &&& 255)
  rw [get_dvs_eq, set_dvs_eq, r1, r2]
  decide

/-- C10 (amended): for an occupied slot holding a non-shiny Pokemon,
`make_pokemon_shiny` returns `True` and writes the DV tuple
(Atk=15, Def=10, Spd=10, Spc=10), after which `is_shiny` holds and the
derived HP nibble is 8; for an already-shiny Pokemon it returns `False` and
leaves the buffer unchanged. -/
theorem make_pokemon_shiny_spec (d : Buf) (slot : Nat) (pkmn : PartyPokemon)
    (hget : get_party_pokemon d slot = some pkmn) :
    (pkmn.is_shiny = false →
      make_pokemon_shiny d slot =
        (set_dvs d (pkmn.offset + PKMN_DVS) 15 10 10 10, true) ∧
      get_dvs (make_pokemon_shiny d slot).1 (pkmn.offset + PKMN_DVS) =
        ⟨8, 15, 10, 10, 10⟩ ∧
      is_shiny (get_dvs (make_pokemon_shiny d slot).1 (pkmn.offset + PKMN_DVS)) = true) ∧
    (pkmn.is_shiny = true → make_pokemon_shiny d slot = (d, false)) := by
  constructor
  · intro hns
    have hbuf : make_pokemon_shiny d slot =
        (set_dvs d (pkmn.offset + PKMN_DVS) 15 10 10 10, true) := by
      unfold make_pokemon_shiny
      rw [hget]
      simp [hns, make_shiny_dvs]
    refine ⟨hbuf, ?_, ?_⟩
    · rw [hbuf]
      exact get_set_shiny_dvs d (pkmn.offset + PKMN_DVS)
    · rw [hbuf]
      rw [get_set_shiny_dvs d (pkmn.offset + PKMN_DVS)]
      decide
  · intro hs
    unfold make_pokemon_shiny
    rw [hget]
    simp [hs]

/-- Counterexample for C10 as stated: on the all-ones buffer (one non-shiny
roster entry), the edit succeeds but the derived HP nibble reads back as 8,
not 15. -/
theorem make_pokemon_shiny_hp_counterexample :
    (make_pokemon_shiny (fun _ => 1) 1).2 = true ∧
    (get_dvs (make_pokemon_shiny (fun _ => 1) 1).1 (get_pokemon_offset 1 + PKMN_DVS)).hp
      = 8 ∧
    ¬ (get_dvs (make_pokemon_shiny (fun _ => 1) 1).1
        (get_pokemon_offset 1 + PKMN_DVS)).hp = 15 := by
  decide

/-- Witness for C10's amended claim on the all-ones buffer. -/
theorem make_pokemon_shiny_spec_witness :
    make_pokemon_shiny (fun _ => 1) 1 =
      (set_dvs (fun _ => 1) (10349 + PKMN_DVS) 15 10 10 10, true) ∧
    get_dvs (make_pokemon_shiny (fun _ => 1) 1).1 (10349 + PKMN_DVS) =
      ⟨8, 15, 10, 10, 10⟩ ∧
    is_shiny (get_dvs (make_pokemon_shiny (fun _ => 1) 1).1 (10349 + PKMN_DVS)) = true :=
  (make_pokemon_shiny_spec (fun _ => 1) 1
    ⟨1, 10349, 1, 1, [1, 1, 1, 1], 1, ⟨5, 0, 1, 0, 1⟩, false,
     257, 257, 257, 257, 257, 257, 257, 1⟩ (by decide)).1 rfl

end CrystalEditor
